import Mathlib

/-!
Verification of the ClearText front-end orchestration layer
(`src/app.js`, `src/config.js`): response normalization, verdict
derivation, request validation and error classification, the health
polling state machine, and the analyze action.

Modelling conventions:
* JSON values are a small inductive `Json`; JavaScript property access
  `obj.k` is `getField`, JS truthiness is `truthy`.
* Numbers are rationals: the IEEE-754 arithmetic of the host is
  idealized as exact rational arithmetic, as the spec states all
  numeric rules in real arithmetic.
* `Math.round` is `jsRound` (floor of x + 1/2, which is what JS does
  for every real argument).
* Fallible operations return `Except`; network effects are made
  explicit by passing a `FetchResult` describing how the single fetch
  of a call resolves, and by returning the list of request bodies that
  reached the transport.
* Timers (poll scheduling delays, the 5-second slow-request toast
  timer) are data (returned intervals) or omitted where they only
  delay presentation; real time is outside the embedding.
-/

/- ── JSON value model ─────────────────────────────────────────── -/

inductive Json where
  | null : Json
  | bool : Bool → Json
  | num : ℚ → Json
  | str : String → Json
  | arr : List Json → Json
  | obj : List (String × Json) → Json

/-- JavaScript property access `j[key]`: `none` stands for `undefined`
(missing key, or access on a non-object). -/
def getField (j : Json) (key : String) : Option Json :=
  match j with
  | .obj fields => (fields.find? (fun p => p.1 == key)).map (fun p => p.2)
  | _ => none

/-- JavaScript truthiness of a JSON value. -/
def truthy : Json → Bool
  | .null => false
  | .bool b => b
  | .num q => decide (q ≠ 0)
  | .str s => decide (s ≠ "")
  | .arr _ => true
  | .obj _ => true

/-- Truthiness of a possibly-undefined value (`undefined` is falsy). -/
def truthyOpt : Option Json → Bool
  | none => false
  | some j => truthy j

/- ── Configuration (config.js) ─────────────────────────────────── -/

def maxCharactersDefault : Nat := 5000
def requestTimeoutMsDefault : Nat := 40000
def pollIntervalOnline : Nat := 30000
def pollIntervalOffline : Nat := 10000
def checkTimeoutMs : Nat := 8000

/- ── Response normalizer (API.parseResponse) ──────────────────── -/

/-- `Math.round`: for every real x, JS rounds to floor (x + 1/2). -/
def jsRound (q : ℚ) : ℤ :=
  Int.floor (q + 1/2)

/-- The `pct` helper of `parseResponse`:
`(val) => (val != null ? Math.round(val * 100) : 0)`. -/
def pct (val : Option ℚ) : ℤ :=
  match val with
  | some v => jsRound (v * 100)
  | none => 0

/-- The raw moderation response handed to the normalizer: a scores
mapping (fine-grained key to float, `none` = key absent) and the
upstream flag value, kept verbatim as JSON. -/
structure RawResponse where
  scores : String → Option ℚ
  flagged : Json

/-- The `maxOf` helper: `Math.max(...keys.map((k) => cs[k] ?? 0))`.
`Math.max` on a nonempty argument list is a left fold of binary max. -/
def maxOf (cs : String → Option ℚ) (key : String) (keys : List String) : ℚ :=
  keys.foldl (fun acc k => max acc ((cs k).getD 0)) ((cs key).getD 0)

/-- The 6 display categories, each an integer percentage. -/
structure CategoryScores where
  hate : ℤ
  harassment : ℤ
  selfHarm : ℤ
  sexual : ℤ
  violence : ℤ
  illicit : ℤ
deriving DecidableEq, Repr

/-- The normalized analysis record. The `timestamp` field of the
source (current wall-clock time) is the one nondeterministic field and
is excluded, as the spec itself instructs for tests. -/
structure AnalysisResult where
  text : String
  scores : CategoryScores
  overallScore : ℤ
  flaggedByApi : Json

/-- `API.parseResponse(data, inputText)`: maps the 13 fine-grained
categories into the 6 display groups (max of sub-categories, missing
key contributing 0), converts to integer percentages, takes the
overall maximum, and copies the input text and upstream flag verbatim.
`Math.max(...Object.values(scores))` iterates the 6 fields in
insertion order, i.e. a left-nested binary max. -/
def parseResponse (data : RawResponse) (inputText : String) : AnalysisResult :=
  let cs := data.scores
  let scores : CategoryScores :=
    { hate := pct (some (maxOf cs "hate" ["hate/threatening"]))
      harassment := pct (some (maxOf cs "harassment" ["harassment/threatening"]))
      selfHarm := pct (some (maxOf cs "self-harm" ["self-harm/intent", "self-harm/instructions"]))
      sexual := pct (some (maxOf cs "sexual" ["sexual/minors"]))
      violence := pct (some (maxOf cs "violence" ["violence/graphic"]))
      illicit := pct (some (maxOf cs "illicit" ["illicit/violent"])) }
  { text := inputText
    scores := scores
    overallScore :=
      max (max (max (max (max scores.hate scores.harassment) scores.selfHarm)
        scores.sexual) scores.violence) scores.illicit
    flaggedByApi := data.flagged }

/- ── Verdict derivation (Render.colorClass, Render.getVerdict) ── -/

/-- `Render.colorClass(score)`. -/
def colorClass (score : ℤ) : String :=
  if score < 30 then "safe"
  else if score ≤ 70 then "warn"
  else "danger"

structure Verdict where
  level : String
  icon : String
  title : String
  subtitle : String
  badgeText : String
  badgeClass : String
  cardClass : String
  iconClass : String
deriving DecidableEq, Repr

/- ── Error classification on non-ok HTTP status (API.analyzeText) ── -/

/-- The `message` field of a parsed error body, when it is a string
(`errorData?.message`). A non-string message value is a JSON shape the
backend never produces and is treated as absent here. -/
def bodyMessage (b : Json) : Option String :=
  match getField b "message" with
  | some (.str s) => some s
  | _ => none

/-- The message of the error thrown on a non-ok HTTP status: starts
from the generic text carrying the raw status, then, when the body
parses as JSON, reassigns per the status if-chain of the source.
`body = none` stands for an unparseable error body (`response.json()`
threw, leaving the generic default in place). -/
def httpErrorMessage (status : Nat) (body : Option Json) : String :=
  match body with
  | none => "Server error (" ++ toString status ++ ")"
  | some b =>
    let msg := bodyMessage b
    let msgTruthy : Bool :=
      match msg with
      | some s => decide (s ≠ "")
      | none => false
    if status = 400 then
      (if msgTruthy then msg.getD "" else "Invalid request. Try analyzing different text.")
    else if status = 403 then "Access denied by server (CORS). Contact support."
    else if status = 429 then "Too many requests. Please wait a moment and try again."
    else if status = 502 then "Could not reach OpenAI. Please try again shortly."
    else if status = 504 then "Request timed out reaching OpenAI. Please try again."
    else if status = 500 then "Internal server error. Please try again shortly."
    else if msgTruthy then msg.getD ""
    else "Server error (" ++ toString status ++ ")"

/- ── ModerationClient (API.analyzeText) ───────────────────────── -/

/-- An HTTP response as the client observes it: `ok` is the 2xx flag,
`status` the raw status code, `body` the JSON parse of the body
(`none` when parsing throws). -/
structure HttpResponse where
  ok : Bool
  status : Nat
  body : Option Json

/-- How the single `fetch` of a call resolves: a completed response,
an abort by the timeout timer, or any other transport failure. -/
inductive FetchResult where
  | success : HttpResponse → FetchResult
  | abortError : FetchResult
  | networkError : FetchResult

/-- The distinct failure exits of `analyzeText`, one constructor per
`throw` site, in source order. Each carries exactly the data its
message text depends on. -/
inductive AnalyzeError where
  | emptyInput : AnalyzeError
  | inputTooLong : Nat → AnalyzeError
  | noConnectivity : AnalyzeError
  | requestTimeout : AnalyzeError
  | networkError : AnalyzeError
  | httpError : String → AnalyzeError
  | bodyParseError : AnalyzeError
  | malformedResponse : AnalyzeError
deriving DecidableEq, Repr

/-- `String.prototype.trim`: strips leading and trailing whitespace.
Spelled out over the character list so that it computes by structural
recursion (the library trim of Lean is extensionally the same but is
defined by well-founded recursion over byte positions). -/
def jsTrim (s : String) : String :=
  String.mk (((s.data.dropWhile Char.isWhitespace).reverse.dropWhile
    Char.isWhitespace).reverse)

/-- The success-path shape check of `analyzeText`:
`typeof data.flagged === 'undefined' || !data.scores` rejects; this is
the accepting complement. -/
def acceptsBody (body : Json) : Bool :=
  (getField body "flagged").isSome && truthyOpt (getField body "scores")

/-- `API.analyzeText(text)`: validates locally (trimmed non-empty,
length within the limit, connectivity flag on), then performs one POST
of the trimmed text, classifies transport and HTTP failures, and shape
checks a 2xx body. The second component lists the request bodies that
reached the transport, so a local failure is visibly network-free. -/
def analyzeTextM (maxChars : Nat) (text : String) (online : Bool)
    (fr : FetchResult) : Except AnalyzeError Json × List String :=
  let trimmed := jsTrim text
  if trimmed = "" then (.error .emptyInput, [])
  else if trimmed.length > maxChars then (.error (.inputTooLong maxChars), [])
  else if online = false then (.error .noConnectivity, [])
  else
    match fr with
    | .abortError => (.error .requestTimeout, [trimmed])
    | .networkError => (.error .networkError, [trimmed])
    | .success r =>
      if r.ok = false then
        (.error (.httpError (httpErrorMessage r.status r.body)), [trimmed])
      else
        match r.body with
        | none => (.error .bodyParseError, [trimmed])
        | some body =>
          if acceptsBody body = false then (.error .malformedResponse, [trimmed])
          else (.ok body, [trimmed])

/-- `Render.getVerdict(score)`. -/
def getVerdict (score : ℤ) : Verdict :=
  if score < 30 then
    { level := "safe", icon := "✓"
      title := "Content Appears Safe"
      subtitle := "No significant harmful content was detected in this text."
      badgeText := "LOW RISK", badgeClass := "badge-safe"
      cardClass := "is-safe", iconClass := "icon-safe" }
  else if score ≤ 70 then
    { level := "warn", icon := "!"
      title := "Potentially Concerning"
      subtitle := "Some content may be considered harmful or offensive by certain audiences."
      badgeText := "MODERATE RISK", badgeClass := "badge-warn"
      cardClass := "is-warn", iconClass := "icon-warn" }
  else
    { level := "hate", icon := "✕"
      title := "Harmful Content Detected"
      subtitle := "This text contains content flagged as harmful, toxic, or hateful."
      badgeText := "HIGH RISK", badgeClass := "badge-danger"
      cardClass := "is-hate", iconClass := "icon-hate" }

/- ── HealthMonitor (ServerStatus) ─────────────────────────────── -/

/-- The mutable state the health checker reads and writes:
`State.isServerOnline` (none = unknown) and the module-local
`wakingToastShown` latch. -/
structure MonitorState where
  isServerOnline : Option Bool
  wakingToastShown : Bool
deriving DecidableEq, Repr

/-- State at app boot: `isServerOnline: null`, latch unset. -/
def initialMonitorState : MonitorState :=
  { isServerOnline := none, wakingToastShown := false }

/-- How one health-check fetch resolves: 2xx, abort by the 8s timer,
or any other failure (non-2xx status or network error — both reach
`handleDown`). -/
inductive CheckOutcome where
  | ok : CheckOutcome
  | timeout : CheckOutcome
  | failure : CheckOutcome
deriving DecidableEq, Repr

def serverOnlineToast : String := "Server is online and ready."
def wakingToast : String :=
  "Please wait — the server is starting up. This can take up to 30 seconds."
def serverOfflineToast : String := "Server appears to be offline. Retrying…"

/-- One run of `ServerStatus.check(showToasts)` whose fetch resolves
as `out`: returns the new state, the toasts emitted, and the delay
passed to `scheduleNext`. In the ok branch the third conjunct of the
toast condition reads `State.isServerOnline` after the assignment, so
it is tested on the updated state, as in the source. The timeout
branch sets the latch and toasts without consulting `showToasts`; the
failure branch (`handleDown`) leaves the latch untouched. -/
def checkStep (showToasts : Bool) (st : MonitorState) (out : CheckOutcome) :
    MonitorState × List String × Nat :=
  match out with
  | .ok =>
    let st' : MonitorState := { isServerOnline := some true, wakingToastShown := false }
    (st',
     (if showToasts = true ∧
         (st.isServerOnline = some false ∨ st.isServerOnline = none) ∧
         st'.isServerOnline ≠ none
      then [serverOnlineToast] else []),
     pollIntervalOnline)
  | .timeout =>
    ({ isServerOnline := some false, wakingToastShown := true },
     (if st.wakingToastShown = false then [wakingToast] else []),
     pollIntervalOffline)
  | .failure =>
    ({ isServerOnline := some false, wakingToastShown := st.wakingToastShown },
     (if showToasts = true ∧ st.isServerOnline = some true
      then [serverOfflineToast] else []),
     pollIntervalOffline)

/-- The self-rescheduled ticks after the initial check: every tick the
timer arms calls `check(true)`. Returns the per-tick toast lists. -/
def runTicks (st : MonitorState) (outs : List CheckOutcome) : List (List String) :=
  match outs with
  | [] => []
  | o :: rest =>
    let r := checkStep true st o
    r.2.1 :: runTicks r.1 rest

/-- A whole polling run from `ServerStatus.init()`: the first check is
`check(false)` from the boot state, every later tick is `check(true)`.
Element i is the toast list of tick i. -/
def runFromStart (outs : List CheckOutcome) : List (List String) :=
  match outs with
  | [] => []
  | o :: rest =>
    let r := checkStep false initialMonitorState o
    r.2.1 :: runTicks r.1 rest

/- ── Actions (handleAnalyze) ──────────────────────────────────── -/

/-- The fields of the shared `State` object that `handleAnalyze`
touches (its `isOnline` field is unread there: the client reads
`navigator.onLine` directly, the `online` parameter below). -/
structure AppState where
  isAnalyzing : Bool
  lastResults : Option AnalysisResult
  lastInputText : String
  isServerOnline : Option Bool

/-- The user-visible effects of one `handleAnalyze` run, in order.
`setFlag` is `setLoadingState`, `request` a body reaching the
transport, `errorToast` the catch-branch toast showing the message of
the error. DOM show and hide calls and scrolling are presentation and
not recorded. -/
inductive UiEvent where
  | setFlag : Bool → UiEvent
  | toast : String → UiEvent
  | request : String → UiEvent
  | showResults : UiEvent
  | errorToast : AnalyzeError → UiEvent

def enterTextToast : String := "Please enter some text before analyzing."

/-- Extracts the scores mapping of a success body for the normalizer:
`data.scores[k]`, defined when the value is a JSON number (the shape
the upstream interface produces; `null` maps to absent exactly as the
`?? 0` of the source treats it). -/
def jsonScores (body : Json) : String → Option ℚ := fun k =>
  match getField body "scores" with
  | some s =>
    match getField s k with
    | some (.num q) => some q
    | _ => none
  | none => none

/-- Packages a validated 2xx body for `parseResponse`: the scores
lookup plus the flag value verbatim. -/
def toRawResponse (body : Json) : RawResponse :=
  { scores := jsonScores body
    flagged := (getField body "flagged").getD Json.null }

/-- The body of `handleAnalyze` between `setLoadingState(true)` and
`setLoadingState(false)`: the optional cold-start toast (the else
branch arms a 5-second timer for a slowness toast, a real-time effect
outside the model), the awaited `analyzeText` call, and either
rendering (which stores the results) or the error toast. -/
def analyzeCore (maxChars : Nat) (st : AppState) (text : String)
    (online : Bool) (fr : FetchResult) : AppState × List UiEvent :=
  let preToasts : List UiEvent :=
    if st.isServerOnline = some false ∨ st.isServerOnline = none
    then [UiEvent.toast wakingToast] else []
  let ar := analyzeTextM maxChars text online fr
  let reqEvents := ar.2.map UiEvent.request
  match ar.1 with
  | .ok body =>
    ({ st with isAnalyzing := false
               lastResults := some (parseResponse (toRawResponse body) text)
               lastInputText := text },
     preToasts ++ reqEvents ++ [UiEvent.showResults])
  | .error e =>
    ({ st with isAnalyzing := false },
     preToasts ++ reqEvents ++ [UiEvent.errorToast e])

/-- `Actions.handleAnalyze()`: a no-op while `State.isAnalyzing` is
set; a toast-only exit on whitespace-only input; otherwise the loading
flag is raised, the core runs, and the flag is cleared in the
`finally`. Returns the final state and the event trace. -/
def handleAnalyzeM (maxChars : Nat) (st : AppState) (text : String)
    (online : Bool) (fr : FetchResult) : AppState × List UiEvent :=
  if st.isAnalyzing = true then (st, [])
  else if jsTrim text = "" then (st, [UiEvent.toast enterTextToast])
  else
    let c := analyzeCore maxChars st text online fr
    (c.1, UiEvent.setFlag true :: (c.2 ++ [UiEvent.setFlag false]))

/-- The request bodies among a trace of events. -/
def requestsOf (evs : List UiEvent) : List String :=
  evs.filterMap (fun e =>
    match e with
    | UiEvent.request b => some b
    | _ => none)

/- ── Spec-side definitions ────────────────────────────────────────
The remaining definitions follow the wording of the spec and of the
amended claims, to be compared with the source embeddings above. -/

/-- The error kinds of the spec taxonomy for non-success statuses. -/
inductive HttpErrorKind where
  | badRequest : HttpErrorKind
  | forbidden : HttpErrorKind
  | rateLimited : HttpErrorKind
  | serverError : HttpErrorKind
  | upstreamUnreachable : HttpErrorKind
  | upstreamTimeout : HttpErrorKind
  | unknownHttp : Nat → HttpErrorKind
deriving DecidableEq, Repr

/-- Status-to-kind mapping as the claim states it. -/
def classifyStatus (status : Nat) : HttpErrorKind :=
  if status = 400 then .badRequest
  else if status = 403 then .forbidden
  else if status = 429 then .rateLimited
  else if status = 500 then .serverError
  else if status = 502 then .upstreamUnreachable
  else if status = 504 then .upstreamTimeout
  else .unknownHttp status

/-- The default user-facing message of each kind. -/
def defaultKindMessage : HttpErrorKind → String
  | .badRequest => "Invalid request. Try analyzing different text."
  | .forbidden => "Access denied by server (CORS). Contact support."
  | .rateLimited => "Too many requests. Please wait a moment and try again."
  | .serverError => "Internal server error. Please try again shortly."
  | .upstreamUnreachable => "Could not reach OpenAI. Please try again shortly."
  | .upstreamTimeout => "Request timed out reaching OpenAI. Please try again."
  | .unknownHttp s => "Server error (" ++ toString s ++ ")"

/-- The kinds whose default a body message may override (amended
claim: only BadRequest and UnknownHttpError). -/
def overridable : HttpErrorKind → Bool
  | .badRequest => true
  | .unknownHttp _ => true
  | _ => false

/-- The amended claim, stated as a definition: classify the status,
then use the nonempty body message when the kind is overridable, else
the default of the kind; an unparseable body gives the generic message
carrying the raw status for every kind. -/
def specErrorMessage (status : Nat) (body : Option Json) : String :=
  match body with
  | none => "Server error (" ++ toString status ++ ")"
  | some b =>
    let k := classifyStatus status
    match bodyMessage b with
    | some m => if m ≠ "" ∧ overridable k = true then m else defaultKindMessage k
    | none => defaultKindMessage k

/-- JS-falsiness of a JSON value, spelled out as the amended claim
enumerates it: null, false, zero, the empty string. -/
def jsFalsy (j : Json) : Bool :=
  match j with
  | .null => true
  | .bool b => decide (b = false)
  | .num q => decide (q = 0)
  | .str s => decide (s = "")
  | .arr _ => false
  | .obj _ => false

/-- The amended malformedness condition on a 2xx body: the flag field
is absent, or the scores field is absent or JS-falsy. -/
def specMalformed (body : Json) : Bool :=
  (getField body "flagged").isNone ||
  (match getField body "scores" with
   | none => true
   | some j => jsFalsy j)

/-- The discarded claim condition: the flag field holds a boolean. -/
def hasBoolFlag (body : Json) : Bool :=
  match getField body "flagged" with
  | some (.bool _) => true
  | _ => false

/-- The discarded claim condition: the scores field holds an object. -/
def hasScoresObj (body : Json) : Bool :=
  match getField body "scores" with
  | some (.obj _) => true
  | _ => false

/- ── Helper lemmas ────────────────────────────────────────────── -/

/-- Code truthiness is the negation of the spec enumeration of falsy
values. -/
theorem truthy_eq_not_jsFalsy : ∀ j : Json, truthy j = !jsFalsy j := by
  intro j
  cases j <;> simp [truthy, jsFalsy, decide_not]

/-- A call sends no request body or exactly the trimmed text. -/
theorem analyzeTextM_request_bodies :
    ∀ (m : Nat) (t : String) (o : Bool) (fr : FetchResult),
      (analyzeTextM m t o fr).2 = [] ∨ (analyzeTextM m t o fr).2 = [jsTrim t] := by
  intro m t o fr
  unfold analyzeTextM
  by_cases h1 : jsTrim t = ""
  · simp [h1]
  · by_cases h2 : (jsTrim t).length > m
    · simp [h1, h2]
    · by_cases h3 : o = false
      · simp [h1, h2, h3]
      · cases fr with
        | abortError => simp [h1, h2, h3]
        | networkError => simp [h1, h2, h3]
        | success r =>
          by_cases h4 : r.ok = false
          · simp [h1, h2, h3, h4]
          · cases hb : r.body with
            | none => simp [h1, h2, h3, h4, hb]
            | some body =>
              by_cases h5 : acceptsBody body = false <;> simp [h1, h2, h3, h4, hb, h5]

theorem requestsOf_map_request :
    ∀ l : List String, requestsOf (l.map UiEvent.request) = l := by
  intro l
  induction l with
  | nil => rfl
  | cons x xs ih =>
    simp [requestsOf, List.filterMap_cons] at ih ⊢
    exact ih

theorem requestsOf_append :
    ∀ a b : List UiEvent, requestsOf (a ++ b) = requestsOf a ++ requestsOf b := by
  intro a b
  simp [requestsOf, List.filterMap_append]

/-- The requests of the core trace are exactly the requests the client
sent. -/
theorem requestsOf_analyzeCore :
    ∀ (m : Nat) (st : AppState) (t : String) (o : Bool) (fr : FetchResult),
      requestsOf (analyzeCore m st t o fr).2 = (analyzeTextM m t o fr).2 := by
  intro m st t o fr
  unfold analyzeCore
  cases har : (analyzeTextM m t o fr).1 <;>
    simp only [har, requestsOf_append, requestsOf_map_request] <;>
    split_ifs <;> simp [requestsOf]

/-- Both exits of the core end with the loading flag down. -/
theorem analyzeCore_flag_cleared :
    ∀ (m : Nat) (st : AppState) (t : String) (o : Bool) (fr : FetchResult),
      (analyzeCore m st t o fr).1.isAnalyzing = false := by
  intro m st t o fr
  unfold analyzeCore
  cases har : (analyzeTextM m t o fr).1 <;> simp [har]

/-- The core trace never toggles the loading flag itself. -/
theorem setFlag_not_mem_analyzeCore :
    ∀ (b : Bool) (m : Nat) (st : AppState) (t : String) (o : Bool) (fr : FetchResult),
      UiEvent.setFlag b ∉ (analyzeCore m st t o fr).2 := by
  intro b m st t o fr
  unfold analyzeCore
  cases har : (analyzeTextM m t o fr).1 <;> simp [har]

/-- On the non-trivial path the requests of the whole action are the
requests of the client call. -/
theorem requestsOf_handleAnalyzeM :
    ∀ (m : Nat) (st : AppState) (t : String) (o : Bool) (fr : FetchResult),
      st.isAnalyzing = false → jsTrim t ≠ "" →
      requestsOf (handleAnalyzeM m st t o fr).2 = (analyzeTextM m t o fr).2 := by
  intro m st t o fr h1 h2
  unfold handleAnalyzeM
  rw [← requestsOf_analyzeCore m st t o fr]
  simp [h1, h2, requestsOf, List.filterMap_cons, List.filterMap_append]

/- ── Claim theorems ───────────────────────────────────────────── -/

/-- C1: for every raw moderation response, the normalizer computes
each of the 6 display category scores as the maximum of that category
constituent fine-grained scores (an absent key contributing 0),
multiplied by 100 and rounded to nearest; in particular a raw response
holding only illicit 0.5 gives normalized illicit 50, and hate 0.42
with hate/threatening 0.10 gives normalized hate 42. -/
theorem parseResponse_aggregates_max_per_category :
    (∀ (cs : String → Option ℚ) (fl : Json) (t : String),
      (parseResponse ⟨cs, fl⟩ t).scores.hate =
        jsRound (max ((cs "hate").getD 0) ((cs "hate/threatening").getD 0) * 100) ∧
      (parseResponse ⟨cs, fl⟩ t).scores.harassment =
        jsRound (max ((cs "harassment").getD 0) ((cs "harassment/threatening").getD 0) * 100) ∧
      (parseResponse ⟨cs, fl⟩ t).scores.selfHarm =
        jsRound (max ((cs "self-harm").getD 0)
          (max ((cs "self-harm/intent").getD 0) ((cs "self-harm/instructions").getD 0)) * 100) ∧
      (parseResponse ⟨cs, fl⟩ t).scores.sexual =
        jsRound (max ((cs "sexual").getD 0) ((cs "sexual/minors").getD 0) * 100) ∧
      (parseResponse ⟨cs, fl⟩ t).scores.violence =
        jsRound (max ((cs "violence").getD 0) ((cs "violence/graphic").getD 0) * 100) ∧
      (parseResponse ⟨cs, fl⟩ t).scores.illicit =
        jsRound (max ((cs "illicit").getD 0) ((cs "illicit/violent").getD 0) * 100)) ∧
    (parseResponse ⟨fun k => if k = "illicit" then some (1/2) else none,
      Json.bool false⟩ "x").scores.illicit = 50 ∧
    (parseResponse ⟨fun k => if k = "hate" then some (42/100) else
      if k = "hate/threatening" then some (10/100) else none,
      Json.bool false⟩ "x").scores.hate = 42 := by
  have hgen : ∀ (cs : String → Option ℚ) (fl : Json) (t : String),
      (parseResponse ⟨cs, fl⟩ t).scores.hate =
        jsRound (max ((cs "hate").getD 0) ((cs "hate/threatening").getD 0) * 100) ∧
      (parseResponse ⟨cs, fl⟩ t).scores.harassment =
        jsRound (max ((cs "harassment").getD 0) ((cs "harassment/threatening").getD 0) * 100) ∧
      (parseResponse ⟨cs, fl⟩ t).scores.selfHarm =
        jsRound (max ((cs "self-harm").getD 0)
          (max ((cs "self-harm/intent").getD 0) ((cs "self-harm/instructions").getD 0)) * 100) ∧
      (parseResponse ⟨cs, fl⟩ t).scores.sexual =
        jsRound (max ((cs "sexual").getD 0) ((cs "sexual/minors").getD 0) * 100) ∧
      (parseResponse ⟨cs, fl⟩ t).scores.violence =
        jsRound (max ((cs "violence").getD 0) ((cs "violence/graphic").getD 0) * 100) ∧
      (parseResponse ⟨cs, fl⟩ t).scores.illicit =
        jsRound (max ((cs "illicit").getD 0) ((cs "illicit/violent").getD 0) * 100) := by
    intro cs fl t
    refine ⟨rfl, rfl, ?_, rfl, rfl, rfl⟩
    simp [parseResponse, maxOf, pct, max_assoc]
  refine ⟨hgen, ?_, ?_⟩
  · rw [(hgen (fun k => if k = "illicit" then some (1/2) else none)
      (Json.bool false) "x").2.2.2.2.2]
    simp only [String.reduceEq, reduceIte, Option.getD_some, Option.getD_none]
    norm_num [jsRound]
  · rw [(hgen (fun k => if k = "hate" then some (42/100) else
      if k = "hate/threatening" then some (10/100) else none) (Json.bool false) "x").1]
    simp only [String.reduceEq, reduceIte, Option.getD_some, Option.getD_none]
    norm_num [jsRound]

/-- C2: the verdict tier is a pure function of the overall score with
boundaries: below 30 the safe tier (LOW RISK), 30 to 70 inclusive the
moderate tier (MODERATE RISK), above 70 the high tier (HIGH RISK); the
bar color classes use the same boundaries; concretely 29 is low, 30
and 70 are moderate, 71 is high. -/
theorem getVerdict_tier_boundaries :
    (∀ s : ℤ,
      (getVerdict s).badgeText =
        (if s < 30 then "LOW RISK" else if s ≤ 70 then "MODERATE RISK" else "HIGH RISK") ∧
      colorClass s =
        (if s < 30 then "safe" else if s ≤ 70 then "warn" else "danger")) ∧
    (getVerdict 29).badgeText = "LOW RISK" ∧
    (getVerdict 30).badgeText = "MODERATE RISK" ∧
    (getVerdict 70).badgeText = "MODERATE RISK" ∧
    (getVerdict 71).badgeText = "HIGH RISK" := by
  refine ⟨fun s => ⟨?_, ?_⟩, ?_, ?_, ?_, ?_⟩
  · unfold getVerdict
    split_ifs <;> rfl
  · unfold colorClass
    split_ifs <;> rfl
  · decide
  · decide
  · decide
  · decide

/-- C3: the overall score of a normalized result is the maximum of the
6 display percentages, is unaffected by the upstream flag value, and
the flagged-by-upstream field is the raw flag value verbatim. -/
theorem overallScore_max_and_flag_copied :
    ∀ (cs : String → Option ℚ) (fl fl2 : Json) (t : String),
      (parseResponse ⟨cs, fl⟩ t).overallScore =
        max (parseResponse ⟨cs, fl⟩ t).scores.hate
          (max (parseResponse ⟨cs, fl⟩ t).scores.harassment
            (max (parseResponse ⟨cs, fl⟩ t).scores.selfHarm
              (max (parseResponse ⟨cs, fl⟩ t).scores.sexual
                (max (parseResponse ⟨cs, fl⟩ t).scores.violence
                  (parseResponse ⟨cs, fl⟩ t).scores.illicit)))) ∧
      (parseResponse ⟨cs, fl⟩ t).flaggedByApi = fl ∧
      (parseResponse ⟨cs, fl⟩ t).overallScore = (parseResponse ⟨cs, fl2⟩ t).overallScore := by
  intro cs fl fl2 t
  refine ⟨?_, rfl, rfl⟩
  simp [parseResponse, max_assoc]

/-- C4 counterexample: a 403 response with a parseable body message
does not surface that message — the fixed CORS text wins, refuting the
claim that a parseable body message always overrides the default. -/
theorem httpErrorMessage_body_override_refuted :
    bodyMessage (Json.obj [("message", Json.str "custom")]) = some "custom" ∧
    httpErrorMessage 403 (some (Json.obj [("message", Json.str "custom")])) =
      "Access denied by server (CORS). Contact support." ∧
    httpErrorMessage 403 (some (Json.obj [("message", Json.str "custom")])) ≠ "custom" := by
  refine ⟨rfl, rfl, ?_⟩
  decide

/-- C4 (amended): on a non-success status the thrown message is
exactly the spec-side classification — status mapped to its kind (400
BadRequest, 403 Forbidden, 429 RateLimited, 500 ServerError, 502
UpstreamUnreachable, 504 UpstreamTimeout, other UnknownHttpError
carrying the raw status), with a nonempty parseable body message
overriding the default only for BadRequest and UnknownHttpError, the
fixed default used regardless of the body for 403, 429, 500, 502, 504,
and the generic status-carrying message used whenever the body is not
parseable; and the full call fails with exactly that message. -/
theorem httpErrorMessage_matches_spec_kinds :
    (∀ (status : Nat) (body : Option Json),
      httpErrorMessage status body = specErrorMessage status body) ∧
    (∀ (maxChars : Nat) (text : String) (online : Bool) (r : HttpResponse),
      jsTrim text ≠ "" → (jsTrim text).length ≤ maxChars → online = true → r.ok = false →
      analyzeTextM maxChars text online (.success r) =
        (.error (.httpError (specErrorMessage r.status r.body)), [jsTrim text])) := by
  have hmsg : ∀ (status : Nat) (body : Option Json),
      httpErrorMessage status body = specErrorMessage status body := by
    intro status body
    cases body with
    | none => rfl
    | some b =>
      cases hm : bodyMessage b with
      | none =>
        simp only [httpErrorMessage, specErrorMessage, classifyStatus, hm]
        split_ifs <;> simp_all [defaultKindMessage]
      | some m =>
        by_cases hme : m = ""
        · subst hme
          simp only [httpErrorMessage, specErrorMessage, classifyStatus, hm]
          split_ifs <;> simp_all [defaultKindMessage, overridable]
        · simp only [httpErrorMessage, specErrorMessage, classifyStatus, hm]
          split_ifs <;> simp_all [defaultKindMessage, overridable]
  refine ⟨hmsg, ?_⟩
  intro maxChars text online r h1 h2 h3 h4
  have hrun : analyzeTextM maxChars text online (.success r) =
      (.error (.httpError (httpErrorMessage r.status r.body)), [jsTrim text]) := by
    unfold analyzeTextM
    simp [h1, Nat.not_lt.mpr h2, h3, h4]
  rw [hrun, hmsg]

/-- C4 witness: a concrete 429 rate-limit response whose body carries
a message still surfaces the fixed rate-limit text. -/
theorem httpErrorMessage_matches_spec_kinds_witness :
    jsTrim "hi" ≠ "" ∧ (jsTrim "hi").length ≤ 5000 ∧
    specErrorMessage 429 (some (Json.obj [("message", Json.str "slow down")])) =
      "Too many requests. Please wait a moment and try again." ∧
    analyzeTextM 5000 "hi" true
        (.success ⟨false, 429, some (Json.obj [("message", Json.str "slow down")])⟩) =
      (.error (.httpError (specErrorMessage 429
        (some (Json.obj [("message", Json.str "slow down")])))), [jsTrim "hi"]) :=
  ⟨by decide, by decide, rfl,
    httpErrorMessage_matches_spec_kinds.2 5000 "hi" true
      ⟨false, 429, some (Json.obj [("message", Json.str "slow down")])⟩
      (by decide) (by decide) rfl rfl⟩

/-- C5: the three analyze preconditions are checked locally and in
order — whitespace-only input fails with the empty-input error, an
over-long trimmed input fails next with the too-long error carrying
the limit (even when also offline), an offline connectivity flag fails
last — and in each case the request list is empty: nothing reaches the
transport. -/
theorem analyzeText_preconditions_local_ordered :
    ∀ (maxChars : Nat) (text : String) (online : Bool) (fr : FetchResult),
      (jsTrim text = "" →
        analyzeTextM maxChars text online fr = (.error .emptyInput, [])) ∧
      (jsTrim text ≠ "" → (jsTrim text).length > maxChars →
        analyzeTextM maxChars text online fr = (.error (.inputTooLong maxChars), [])) ∧
      (jsTrim text ≠ "" → (jsTrim text).length ≤ maxChars → online = false →
        analyzeTextM maxChars text online fr = (.error .noConnectivity, [])) := by
  intro maxChars text online fr
  refine ⟨?_, ?_, ?_⟩
  · intro h
    unfold analyzeTextM
    simp [h]
  · intro h1 h2
    unfold analyzeTextM
    simp [h1, h2]
  · intro h1 h2 h3
    unfold analyzeTextM
    simp [h1, Nat.not_lt.mpr h2, h3]

/-- C5 witness: concrete runs of all three precondition failures, the
middle one while also offline (showing the length check fires before
the connectivity check), each with an empty request list. -/
theorem analyzeText_preconditions_local_ordered_witness :
    (jsTrim "   " = "" ∧
      analyzeTextM 5000 "   " true FetchResult.networkError = (.error .emptyInput, [])) ∧
    (jsTrim "abcd" ≠ "" ∧ (jsTrim "abcd").length > 3 ∧
      analyzeTextM 3 "abcd" false FetchResult.networkError = (.error (.inputTooLong 3), [])) ∧
    (jsTrim "abcd" ≠ "" ∧ (jsTrim "abcd").length ≤ 5000 ∧
      analyzeTextM 5000 "abcd" false FetchResult.networkError = (.error .noConnectivity, [])) :=
  ⟨⟨by decide, (analyzeText_preconditions_local_ordered 5000 "   " true
      FetchResult.networkError).1 (by decide)⟩,
    ⟨by decide, by decide, (analyzeText_preconditions_local_ordered 3 "abcd" false
      FetchResult.networkError).2.1 (by decide) (by decide)⟩,
    ⟨by decide, by decide, (analyzeText_preconditions_local_ordered 5000 "abcd" false
      FetchResult.networkError).2.2 (by decide) (by decide) rfl⟩⟩

/-- C6 counterexample: a 2xx body whose flag field is the number 1
(not a boolean) and whose scores field is an object is accepted and
returned, refuting the claim that a body lacking a boolean flag field
always fails with the malformed-response error. -/
theorem malformed_shape_check_refuted :
    analyzeTextM 5000 "hi" true
        (.success ⟨true, 200, some (Json.obj [("flagged", Json.num 1), ("scores", Json.obj [])])⟩) =
      (.ok (Json.obj [("flagged", Json.num 1), ("scores", Json.obj [])]), ["hi"]) ∧
    hasBoolFlag (Json.obj [("flagged", Json.num 1), ("scores", Json.obj [])]) = false :=
  ⟨rfl, rfl⟩

/-- C6 (amended): a 2xx response fails with the malformed-response
error exactly when the flag field is absent or the scores field is
absent or JS-falsy (null, false, zero, or the empty string); when a
flag field of any type is present and the scores value is truthy, the
raw body is returned successfully — booleanness of the flag and
object-ness of the scores are not checked. -/
theorem malformed_exactly_on_absent_or_falsy :
    (∀ body : Json, acceptsBody body = false ↔ specMalformed body = true) ∧
    (∀ (maxChars : Nat) (text : String) (online : Bool) (r : HttpResponse) (body : Json),
      jsTrim text ≠ "" → (jsTrim text).length ≤ maxChars → online = true →
      r.ok = true → r.body = some body →
      (specMalformed body = true →
        analyzeTextM maxChars text online (.success r) =
          (.error .malformedResponse, [jsTrim text])) ∧
      (specMalformed body = false →
        analyzeTextM maxChars text online (.success r) = (.ok body, [jsTrim text]))) := by
  have hiff : ∀ body : Json, acceptsBody body = false ↔ specMalformed body = true := by
    intro body
    unfold acceptsBody specMalformed
    cases hf : getField body "flagged" <;> cases hs : getField body "scores" <;>
      simp_all [truthyOpt, truthy_eq_not_jsFalsy]
  refine ⟨hiff, ?_⟩
  intro maxChars text online r body h1 h2 h3 h4 h5
  have hrun : analyzeTextM maxChars text online (.success r) =
      (if acceptsBody body = false then (.error .malformedResponse, [jsTrim text])
       else (.ok body, [jsTrim text])) := by
    unfold analyzeTextM
    simp [h1, Nat.not_lt.mpr h2, h3, h4, h5]
  constructor
  · intro hsm
    rw [hrun, if_pos ((hiff body).mpr hsm)]
  · intro hsm
    have hacc : ¬ acceptsBody body = false := by
      intro hc
      have hc2 := (hiff body).mp hc
      simp [hsm] at hc2
    rw [hrun, if_neg hacc]

/-- C6 witness: a concrete 2xx body with a boolean flag but no scores
field fails with the malformed-response error, and a zero request does
not occur — the request list holds the one POST already made. -/
theorem malformed_exactly_on_absent_or_falsy_witness :
    jsTrim "hi" ≠ "" ∧ (jsTrim "hi").length ≤ 5000 ∧
    specMalformed (Json.obj [("flagged", Json.bool true)]) = true ∧
    analyzeTextM 5000 "hi" true
        (.success ⟨true, 200, some (Json.obj [("flagged", Json.bool true)])⟩) =
      (.error .malformedResponse, [jsTrim "hi"]) :=
  ⟨by decide, by decide, rfl,
    (malformed_exactly_on_absent_or_falsy.2 5000 "hi" true
      ⟨true, 200, some (Json.obj [("flagged", Json.bool true)])⟩
      (Json.obj [("flagged", Json.bool true)])
      (by decide) (by decide) rfl rfl rfl).1 rfl⟩

/-- C7 counterexample: the initial health check (toasts suppressed by
the caller) still emits the server-starting-up toast when it times
out, refuting the claim that the initial check emits no notification
regardless of outcome. -/
theorem initial_check_notification_refuted :
    (checkStep false initialMonitorState CheckOutcome.timeout).2.1 ≠ [] := by
  decide

/-- C7 (amended): the initial health check on startup emits no
notification when it succeeds or when it fails with a non-timeout
error, but a timeout on the initial check does emit the one-shot
server-starting-up notification, since that branch does not consult
the show-toasts parameter and the one-shot latch starts unset. -/
theorem initial_check_notifications :
    (checkStep false initialMonitorState CheckOutcome.ok).2.1 = [] ∧
    (checkStep false initialMonitorState CheckOutcome.failure).2.1 = [] ∧
    (checkStep false initialMonitorState CheckOutcome.timeout).2.1 = [wakingToast] :=
  ⟨rfl, rfl, rfl⟩

/-- C8: in the polling loop the offline-retrying toast is emitted on a
tick exactly when that tick fails (non-timeout) while the previous
state was online; and in a concrete run starting as the monitor does
(first tick silent), a first success emits nothing, the next failure
emits exactly one offline toast, further failures emit nothing, and
after a recovery the next failure toasts again. -/
theorem offline_toast_only_on_online_to_offline :
    (∀ (st : MonitorState) (out : CheckOutcome),
      serverOfflineToast ∈ (checkStep true st out).2.1 ↔
        (out = CheckOutcome.failure ∧ st.isServerOnline = some true)) ∧
    runFromStart [CheckOutcome.ok, CheckOutcome.failure, CheckOutcome.failure,
        CheckOutcome.ok, CheckOutcome.failure] =
      [[], [serverOfflineToast], [], [serverOnlineToast], [serverOfflineToast]] := by
  refine ⟨?_, by decide⟩
  intro st out
  cases out with
  | ok =>
    simp only [checkStep]
    split_ifs <;> simp [serverOfflineToast, serverOnlineToast]
  | timeout =>
    simp only [checkStep]
    split_ifs <;> simp [serverOfflineToast, wakingToast]
  | failure =>
    simp only [checkStep]
    split_ifs with h <;> simp_all

/-- C9: at most one analyze operation is in flight — triggering the
action while the flag is set is a complete no-op (state unchanged, no
event, no request); every run sends at most one request; and on the
non-trivial path the loading flag is raised as the first event,
cleared as the last event on every completion path, never toggled in
between, and ends cleared in the final state. -/
theorem analyze_mutual_exclusion_flag :
    ∀ (m : Nat) (st : AppState) (text : String) (o : Bool) (fr : FetchResult),
      (st.isAnalyzing = true → handleAnalyzeM m st text o fr = (st, [])) ∧
      (requestsOf (handleAnalyzeM m st text o fr).2).length ≤ 1 ∧
      (st.isAnalyzing = false → jsTrim text ≠ "" →
        (handleAnalyzeM m st text o fr).1.isAnalyzing = false ∧
        ∃ mid, (handleAnalyzeM m st text o fr).2 =
            UiEvent.setFlag true :: (mid ++ [UiEvent.setFlag false]) ∧
          ∀ b : Bool, UiEvent.setFlag b ∉ mid) := by
  intro m st text o fr
  refine ⟨?_, ?_, ?_⟩
  · intro h
    unfold handleAnalyzeM
    simp [h]
  · by_cases h1 : st.isAnalyzing = true
    · simp [handleAnalyzeM, h1, requestsOf]
    · by_cases h2 : jsTrim text = ""
      · simp [handleAnalyzeM, h1, h2, requestsOf]
      · rw [requestsOf_handleAnalyzeM m st text o fr (by simpa using h1) h2]
        rcases analyzeTextM_request_bodies m text o fr with h | h <;> simp [h]
  · intro h1 h2
    constructor
    · simp [handleAnalyzeM, h1, h2, analyzeCore_flag_cleared]
    · refine ⟨(analyzeCore m st text o fr).2, ?_,
        fun b => setFlag_not_mem_analyzeCore b m st text o fr⟩
      simp [handleAnalyzeM, h1, h2]

/-- C9 witness: with the flag set, a concrete trigger is a no-op; with
the flag clear, a concrete run brackets its trace in a raise and a
clear of the flag with no toggle in between and ends with the flag
clear. -/
theorem analyze_mutual_exclusion_flag_witness :
    (handleAnalyzeM 5000 ⟨true, none, "", some true⟩ "hi" true FetchResult.networkError =
      (⟨true, none, "", some true⟩, [])) ∧
    ((handleAnalyzeM 5000 ⟨false, none, "", some true⟩ "hi" true
        FetchResult.networkError).1.isAnalyzing = false ∧
      ∃ mid, (handleAnalyzeM 5000 ⟨false, none, "", some true⟩ "hi" true
          FetchResult.networkError).2 =
          UiEvent.setFlag true :: (mid ++ [UiEvent.setFlag false]) ∧
        ∀ b : Bool, UiEvent.setFlag b ∉ mid) :=
  ⟨(analyze_mutual_exclusion_flag 5000 ⟨true, none, "", some true⟩ "hi" true
      FetchResult.networkError).1 rfl,
    (analyze_mutual_exclusion_flag 5000 ⟨false, none, "", some true⟩ "hi" true
      FetchResult.networkError).2.2 rfl (by decide)⟩

/-- C10: the normalizer copies its text argument verbatim into the
result, and a successful analyze run stores a result whose text is the
original input unchanged (whitespace included) while the single
request body that reached the transport is the trimmed text. -/
theorem result_text_verbatim_request_trimmed :
    (∀ (raw : RawResponse) (t : String), (parseResponse raw t).text = t) ∧
    (∀ (m : Nat) (st : AppState) (text : String) (r : HttpResponse) (body : Json),
      st.isAnalyzing = false → jsTrim text ≠ "" → (jsTrim text).length ≤ m →
      r.ok = true → r.body = some body → acceptsBody body = true →
      requestsOf (handleAnalyzeM m st text true (.success r)).2 = [jsTrim text] ∧
      (handleAnalyzeM m st text true (.success r)).1.lastResults =
        some (parseResponse (toRawResponse body) text) ∧
      Option.map AnalysisResult.text
        (handleAnalyzeM m st text true (.success r)).1.lastResults = some text ∧
      (handleAnalyzeM m st text true (.success r)).1.lastInputText = text) := by
  refine ⟨fun raw t => rfl, ?_⟩
  intro m st text r body h1 h2 h3 h4 h5 h6
  have hrun : analyzeTextM m text true (.success r) = (.ok body, [jsTrim text]) := by
    unfold analyzeTextM
    simp [h2, Nat.not_lt.mpr h3, h4, h5, h6]
  refine ⟨?_, ?_, ?_, ?_⟩
  · rw [requestsOf_handleAnalyzeM m st text true (.success r) h1 h2, hrun]
  · simp [handleAnalyzeM, h1, h2, analyzeCore, hrun]
  · simp [handleAnalyzeM, h1, h2, analyzeCore, hrun, parseResponse]
  · simp [handleAnalyzeM, h1, h2, analyzeCore, hrun]

/-- C10 witness: analyzing text with surrounding whitespace sends the
trimmed body but stores the untrimmed original in the result. -/
theorem result_text_verbatim_request_trimmed_witness :
    jsTrim "  hi  " = "hi" ∧
    acceptsBody (Json.obj [("flagged", Json.bool true),
      ("scores", Json.obj [("hate", Json.num (1/2))])]) = true ∧
    requestsOf (handleAnalyzeM 5000 ⟨false, none, "", some true⟩ "  hi  " true
        (.success ⟨true, 200, some (Json.obj [("flagged", Json.bool true),
          ("scores", Json.obj [("hate", Json.num (1/2))])])⟩)).2 = [jsTrim "  hi  "] ∧
    Option.map AnalysisResult.text
      (handleAnalyzeM 5000 ⟨false, none, "", some true⟩ "  hi  " true
        (.success ⟨true, 200, some (Json.obj [("flagged", Json.bool true),
          ("scores", Json.obj [("hate", Json.num (1/2))])])⟩)).1.lastResults =
      some "  hi  " :=
  ⟨by decide, by decide,
    (result_text_verbatim_request_trimmed.2 5000 ⟨false, none, "", some true⟩ "  hi  "
      ⟨true, 200, some (Json.obj [("flagged", Json.bool true),
        ("scores", Json.obj [("hate", Json.num (1/2))])])⟩
      (Json.obj [("flagged", Json.bool true), ("scores", Json.obj [("hate", Json.num (1/2))])])
      rfl (by decide) (by decide) rfl rfl (by decide)).1,
    (result_text_verbatim_request_trimmed.2 5000 ⟨false, none, "", some true⟩ "  hi  "
      ⟨true, 200, some (Json.obj [("flagged", Json.bool true),
        ("scores", Json.obj [("hate", Json.num (1/2))])])⟩
      (Json.obj [("flagged", Json.bool true), ("scores", Json.obj [("hate", Json.num (1/2))])])
      rfl (by decide) (by decide) rfl rfl (by decide)).2.2.1⟩
